import Mathlib

/-!
# Verification of the `convmit` commit-message generator

Shallow embedding of the core of the `convmit` tool (a CLI that generates
conventional-commit messages from staged changes via one of several LLM
provider HTTP APIs) together with proofs about its specified behaviour.

The embedding follows the Rust sources:
* `src/ai.rs` — model catalog, prompt builder, client factory;
* `src/ai/{claude,openai,gemini,mistral}.rs` — provider clients
  (response handling; the HTTP transport itself is modelled as an
  explicit response value);
* `src/config.rs` — credential resolution and validation (the process
  environment is modelled as an explicit function `String → Option String`);
* `src/main.rs` — orchestration (`apply_file_filters`,
  `edit_commit_message_inner`, `parse_editor_command`, and the `main`
  control flow with every external effect's outcome passed as a value).
-/

namespace Convmit

/-- The enumerated, closed model catalog of `src/ai.rs` (`enum Model`).

The constructor `Haiku4_5` is Modelled from the spec: `src/config.rs`
references `crate::ai::Model::Haiku4_5` as the fixed built-in fallback
default model, but the `src/ai.rs` snapshot in the repository lacks that
variant; per the spec ("a fixed built-in fallback model", a Claude-family
model by name and by the config tests that validate it against the Claude
credential) it is included as an extra Claude-family variant outside
`all_models`. -/
inductive Model where
  | Opus4_1
  | Opus4
  | Sonnet4
  | Sonnet3_7
  | Haiku3_5
  | Haiku3
  | GPT5
  | GPT5Mini
  | GPT5Nano
  | Gemini2_5Pro
  | Gemini2_5Flash
  | Gemini2_5FlashLite
  | MistralMedium31
  | MagistralMedium11
  | Codestral2508
  | MistralSmall32
  | Ministral8B
  | Haiku4_5
deriving DecidableEq, Repr

namespace Model

/-- Rust `impl Display for Model` in `src/ai.rs`: the vendor wire identifier
(`main.rs` also calls this `to_api_str`).  The string for `Haiku4_5` is
Modelled from the spec (vendor naming convention); it is absent from the
`src/ai.rs` table. -/
def to_api_str : Model → String
  | .Opus4_1 => "claude-opus-4-1-20250805"
  | .Opus4 => "claude-opus-4-20250514"
  | .Sonnet4 => "claude-sonnet-4-20250514"
  | .Sonnet3_7 => "claude-3-7-sonnet-20250219"
  | .Haiku3_5 => "claude-3-5-haiku-20241022"
  | .Haiku3 => "claude-3-haiku-20240307"
  | .GPT5 => "gpt-5-2025-08-07"
  | .GPT5Mini => "gpt-5-mini-2025-08-07"
  | .GPT5Nano => "gpt-5-nano-2025-08-07"
  | .Gemini2_5Pro => "gemini-2.5-pro"
  | .Gemini2_5Flash => "gemini-2.5-flash"
  | .Gemini2_5FlashLite => "gemini-2.5-flash-lite"
  | .MistralMedium31 => "mistral-medium-2508"
  | .MagistralMedium11 => "magistral-medium-2507"
  | .Codestral2508 => "codestral-2508"
  | .MistralSmall32 => "mistral-small-3.2"
  | .Ministral8B => "ministral-8b-2410"
  | .Haiku4_5 => "claude-haiku-4-5"

/-- Rust `impl FromStr for Model` in `src/ai.rs`: parse a CLI identifier;
unknown identifiers yield `Err(anyhow!("Unknown model: {arg}"))`. -/
def from_str (arg : String) : Except String Model :=
  if arg = "opus-4-1" then .ok .Opus4_1
  else if arg = "opus-4" then .ok .Opus4
  else if arg = "sonnet-4" then .ok .Sonnet4
  else if arg = "sonnet-3-7" then .ok .Sonnet3_7
  else if arg = "haiku-3-5" then .ok .Haiku3_5
  else if arg = "haiku-3" then .ok .Haiku3
  else if arg = "gpt-5" then .ok .GPT5
  else if arg = "gpt-5-mini" then .ok .GPT5Mini
  else if arg = "gpt-5-nano" then .ok .GPT5Nano
  else if arg = "gemini-2.5-pro" then .ok .Gemini2_5Pro
  else if arg = "gemini-2.5-flash" then .ok .Gemini2_5Flash
  else if arg = "gemini-2.5-flash-lite" then .ok .Gemini2_5FlashLite
  else if arg = "mistral-medium-31" then .ok .MistralMedium31
  else if arg = "magistral-medium-11" then .ok .MagistralMedium11
  else if arg = "codestral-2508" then .ok .Codestral2508
  else if arg = "mistral-small-32" then .ok .MistralSmall32
  else if arg = "ministral-8b" then .ok .Ministral8B
  else .error ("Unknown model: " ++ arg)

/-- Rust `Model::all_models` in `src/ai.rs`: the closed catalog, in source order. -/
def all_models : List Model :=
  [ .Opus4_1, .Opus4, .Sonnet4, .Sonnet3_7, .Haiku3_5, .Haiku3,
    .GPT5, .GPT5Mini, .GPT5Nano,
    .Gemini2_5Pro, .Gemini2_5Flash, .Gemini2_5FlashLite,
    .MistralMedium31, .MagistralMedium11, .Codestral2508,
    .MistralSmall32, .Ministral8B ]

/-- Rust `Model::cli_name` in `src/ai.rs`.  `Haiku4_5` is outside the source
table; its name follows the catalog convention and is never produced by
`from_str`. -/
def cli_name : Model → String
  | .Opus4_1 => "opus-4-1"
  | .Opus4 => "opus-4"
  | .Sonnet4 => "sonnet-4"
  | .Sonnet3_7 => "sonnet-3-7"
  | .Haiku3_5 => "haiku-3-5"
  | .Haiku3 => "haiku-3"
  | .GPT5 => "gpt-5"
  | .GPT5Mini => "gpt-5-mini"
  | .GPT5Nano => "gpt-5-nano"
  | .Gemini2_5Pro => "gemini-2.5-pro"
  | .Gemini2_5Flash => "gemini-2.5-flash"
  | .Gemini2_5FlashLite => "gemini-2.5-flash-lite"
  | .MistralMedium31 => "mistral-medium-31"
  | .MagistralMedium11 => "magistral-medium-11"
  | .Codestral2508 => "codestral-2508"
  | .MistralSmall32 => "mistral-small-32"
  | .Ministral8B => "ministral-8b"
  | .Haiku4_5 => "haiku-4-5"

/-- Rust `Model::is_claude` in `src/ai.rs` (with the spec-modelled `Haiku4_5`
classified as Claude, as the config tests require). -/
def is_claude : Model → Bool
  | .Opus4_1 | .Opus4 | .Sonnet4 | .Sonnet3_7 | .Haiku3_5 | .Haiku3
  | .Haiku4_5 => true
  | _ => false

/-- Rust `Model::is_openai` in `src/ai.rs`. -/
def is_openai : Model → Bool
  | .GPT5 | .GPT5Mini | .GPT5Nano => true
  | _ => false

/-- Rust `Model::is_gemini` in `src/ai.rs`. -/
def is_gemini : Model → Bool
  | .Gemini2_5Pro | .Gemini2_5Flash | .Gemini2_5FlashLite => true
  | _ => false

/-- Rust `Model::is_mistral` in `src/ai.rs`. -/
def is_mistral : Model → Bool
  | .MistralMedium31 | .MagistralMedium11 | .Codestral2508
  | .MistralSmall32 | .Ministral8B => true
  | _ => false

/-- Rust `Model::provider` in `src/ai.rs`: human-readable vendor name via the
`is_*` chain. -/
def provider (m : Model) : String :=
  if m.is_claude then "Claude"
  else if m.is_openai then "OpenAI"
  else if m.is_gemini then "Google Gemini"
  else if m.is_mistral then "Mistral"
  else "Unknown"

end Model

/-- Rust `BASE_PROMPT` of `src/ai.rs` (the fixed instruction constant; apostrophes
written as the escape `\x27`). -/
def BASE_PROMPT : String :=
  "Generate a conventional commit message based on the staged files and git diff below.\n\nFORMAT: type(scope): description\n- Use lowercase for type and description\n- Scope is optional but recommended (file/module/feature affected)\n- Description should be 50-72 characters, imperative mood\n- Add \x27!\x27 after type for breaking changes\n\nCOMMIT TYPES:\n- feat: new feature or enhancement\n- fix: bug fix or error correction\n- docs: documentation changes only\n- style: formatting, whitespace (no logic changes)\n- refactor: code restructuring (no feature/bug changes)\n- test: adding or updating tests\n- chore: maintenance, deps, config, build\n- perf: performance improvements\n- ci: CI/CD pipeline changes\n\nSCOPE GUIDELINES:\n- Use filename/module for single file changes\n- Use feature name for multi-file features\n- Use \x27readme\x27 for README changes\n- Omit scope for broad changes\n\nEXAMPLES:\n- feat(auth): add OAuth2 login support\n- fix(parser): handle empty input correctly\n- docs(readme): update installation instructions\n- refactor(claude.rs): implement ToString for Model enum\n- style: format code with rustfmt\n- chore(deps): update reqwest to 0.11\n\nINSTRUCTIONS:\n- Analyze the changes to determine the most appropriate type\n- Look for breaking changes (API changes, removed features)\n- Focus on the \x27why\x27 not the \x27what\x27 in the description\n- Return ONLY the commit message, no explanations\n"

/-- Rust slice join with separator `"\n"`, as `build_prompt` uses it
(`files.join("\n")`). -/
def joinNewline : List String → String
  | [] => ""
  | [f] => f
  | f :: rest => f ++ "\n" ++ joinNewline rest

/-- Rust `build_prompt` of `src/ai.rs`:
`format!("{}\n\n Staged files:\n\n {}\n\n Diff:\n\n {}", BASE_PROMPT, files.join("\n"), diff)`. -/
def build_prompt (files : List String) (diff : String) : String :=
  BASE_PROMPT ++ "\n\n Staged files:\n\n " ++ joinNewline files
    ++ "\n\n Diff:\n\n " ++ diff

/-- Rust `apply_file_filters` of `src/main.rs`: keep a staged file when the
only-set is empty or contains it, and the exclude-set does not contain it
(the Rust `HashSet`s built from the flag lists are modelled by list
membership). -/
def apply_file_filters (staged_files : List String)
    (only : List String) (exclude : List String) : List String :=
  staged_files.filter fun file =>
    (only.isEmpty || only.contains file) && !(exclude.contains file)

/-! ## JSON values and parsing

The provider clients deserialize HTTP bodies with `serde_json`.  The
embedding gives JSON values as a tree, a parser for the JSON grammar
(strict about control characters, escapes and trailing input, as
`serde_json::from_str` is), and per-client decoders mirroring the derived
`Deserialize` impls (structs read the named fields and ignore unknown
ones; a duplicate key resolves to its first occurrence). -/

/-- A JSON value.  Numeric literals are kept as their lexemes: no decoded
field of any client is numeric. -/
inductive Json where
  | null
  | bool (b : Bool)
  | num (lit : String)
  | str (s : String)
  | arr (elems : List Json)
  | obj (fields : List (String × Json))

/-- The JSON whitespace characters. -/
def jsonWs (c : Char) : Bool :=
  c = ' ' || c = '\t' || c = '\n' || c = '\r'

/-- Drop leading JSON whitespace. -/
def skipWs (l : List Char) : List Char := l.dropWhile jsonWs

/-- Value of a hexadecimal digit. -/
def hexVal (c : Char) : Option Nat :=
  if '0' ≤ c ∧ c ≤ '9' then some (c.toNat - '0'.toNat)
  else if 'a' ≤ c ∧ c ≤ 'f' then some (c.toNat - 'a'.toNat + 10)
  else if 'A' ≤ c ∧ c ≤ 'F' then some (c.toNat - 'A'.toNat + 10)
  else none

/-- Parse the body of a JSON string literal (after the opening quote),
handling the escape sequences of the JSON grammar, including surrogate
pairs; unescaped control characters are rejected. -/
def parseStringBody (acc : List Char) : List Char → Option (String × List Char)
  | [] => none
  | '"' :: rest => some (⟨acc.reverse⟩, rest)
  | '\\' :: e :: rest =>
    if e = '"' then parseStringBody ('"' :: acc) rest
    else if e = '\\' then parseStringBody ('\\' :: acc) rest
    else if e = '/' then parseStringBody ('/' :: acc) rest
    else if e = 'b' then parseStringBody ('\x08' :: acc) rest
    else if e = 'f' then parseStringBody ('\x0C' :: acc) rest
    else if e = 'n' then parseStringBody ('\n' :: acc) rest
    else if e = 'r' then parseStringBody ('\r' :: acc) rest
    else if e = 't' then parseStringBody ('\t' :: acc) rest
    else if e = 'u' then
      match rest with
      | a :: b :: c :: d :: rest1 =>
        match hexVal a, hexVal b, hexVal c, hexVal d with
        | some ha, some hb, some hc, some hd =>
          let n := ((ha * 16 + hb) * 16 + hc) * 16 + hd
          if 0xD800 ≤ n ∧ n ≤ 0xDBFF then
            match rest1 with
            | '\\' :: 'u' :: a2 :: b2 :: c2 :: d2 :: rest2 =>
              match hexVal a2, hexVal b2, hexVal c2, hexVal d2 with
              | some ha2, some hb2, some hc2, some hd2 =>
                let m := ((ha2 * 16 + hb2) * 16 + hc2) * 16 + hd2
                if 0xDC00 ≤ m ∧ m ≤ 0xDFFF then
                  parseStringBody
                    (Char.ofNat (0x10000 + (n - 0xD800) * 0x400 + (m - 0xDC00)) :: acc)
                    rest2
                else none
              | _, _, _, _ => none
            | _ => none
          else if 0xDC00 ≤ n ∧ n ≤ 0xDFFF then none
          else parseStringBody (Char.ofNat n :: acc) rest1
        | _, _, _, _ => none
      | _ => none
    else none
  | c :: rest =>
    if c.toNat < 0x20 then none else parseStringBody (c :: acc) rest

/-- Lex a JSON number and return its lexeme. -/
def parseNumber (l : List Char) : Option (String × List Char) :=
  let (sign, l1) :=
    match l with
    | '-' :: r => (['-'], r)
    | _ => (([] : List Char), l)
  match l1 with
  | '0' :: r =>
    (parseNumberTail r).map fun (t, r2) => (⟨sign ++ ['0'] ++ t⟩, r2)
  | c :: r =>
    if '1' ≤ c ∧ c ≤ '9' then
      let (ds, r1) := r.span (·.isDigit)
      (parseNumberTail r1).map fun (t, r2) => (⟨sign ++ (c :: ds) ++ t⟩, r2)
    else none
  | [] => none
where
  /-- Optional fraction and exponent parts. -/
  parseNumberTail (l : List Char) : Option (List Char × List Char) :=
    let (frac, l1) :=
      match l with
      | '.' :: r =>
        let (ds, r1) := r.span (·.isDigit)
        if ds.isEmpty then (none, l) else (some ('.' :: ds), r1)
      | _ => (none, l)
    match frac with
    | none =>
      match parseExpPart l with
      | none => some ([], l)
      | some (e, r) => some (e, r)
    | some f =>
      match parseExpPart l1 with
      | none => some (f, l1)
      | some (e, r) => some (f ++ e, r)
  /-- Optional exponent part. -/
  parseExpPart (l : List Char) : Option (List Char × List Char) :=
    match l with
    | c :: r =>
      if c = 'e' ∨ c = 'E' then
        let (sgn, r1) :=
          match r with
          | s :: r2 => if s = '+' ∨ s = '-' then ([s], r2) else (([] : List Char), r)
          | [] => ([], r)
        let (ds, r2) := r1.span (·.isDigit)
        if ds.isEmpty then none else some (c :: (sgn ++ ds), r2)
      else none
    | [] => none

mutual

/-- Parse one JSON value (fuel-indexed recursion). -/
def parseValue : Nat → List Char → Option (Json × List Char)
  | 0, _ => none
  | fuel + 1, l =>
    match skipWs l with
    | 'n' :: 'u' :: 'l' :: 'l' :: rest => some (.null, rest)
    | 't' :: 'r' :: 'u' :: 'e' :: rest => some (.bool true, rest)
    | 'f' :: 'a' :: 'l' :: 's' :: 'e' :: rest => some (.bool false, rest)
    | '"' :: rest => (parseStringBody [] rest).map fun (s, r) => (.str s, r)
    | '[' :: rest =>
      (match skipWs rest with
       | ']' :: r => some (.arr [], r)
       | l1 => (parseElems fuel l1).map fun (es, r) => (.arr es, r))
    | '{' :: rest =>
      (match skipWs rest with
       | '}' :: r => some (.obj [], r)
       | l1 => (parseMembers fuel l1).map fun (fs, r) => (.obj fs, r))
    | l1 => (parseNumber l1).map fun (s, r) => (.num s, r)

/-- Parse the elements of a non-empty JSON array, up to and including the
closing bracket. -/
def parseElems : Nat → List Char → Option (List Json × List Char)
  | 0, _ => none
  | fuel + 1, l =>
    match parseValue fuel l with
    | none => none
    | some (v, r) =>
      match skipWs r with
      | ',' :: r1 => (parseElems fuel r1).map fun (es, r2) => (v :: es, r2)
      | ']' :: r1 => some ([v], r1)
      | _ => none

/-- Parse the members of a non-empty JSON object, up to and including the
closing brace. -/
def parseMembers : Nat → List Char → Option (List (String × Json) × List Char)
  | 0, _ => none
  | fuel + 1, l =>
    match skipWs l with
    | '"' :: rest =>
      match parseStringBody [] rest with
      | none => none
      | some (key, r) =>
        match skipWs r with
        | ':' :: r1 =>
          match parseValue fuel r1 with
          | none => none
          | some (v, r2) =>
            match skipWs r2 with
            | ',' :: r3 => (parseMembers fuel r3).map fun (fs, r4) => ((key, v) :: fs, r4)
            | '}' :: r3 => some ([(key, v)], r3)
            | _ => none
        | _ => none
    | _ => none

end

/-- Rust `serde_json::from_str` on a body text: parse one JSON value and require
only whitespace after it. -/
def json_from_str (s : String) : Option Json :=
  match parseValue (2 * s.length + 4) s.data with
  | some (v, rest) => if (skipWs rest).isEmpty then some v else none
  | none => none

/-- Field lookup on a JSON object (first occurrence of the key). -/
def Json.getField (j : Json) (name : String) : Option Json :=
  match j with
  | .obj fields => fields.lookup name
  | _ => none

/-- Decode a JSON string value. -/
def Json.asStr (j : Json) : Option String :=
  match j with
  | .str s => some s
  | _ => none

/-- Decode a JSON array value. -/
def Json.asArr (j : Json) : Option (List Json) :=
  match j with
  | .arr es => some es
  | _ => none

/-! ## Provider clients

Each client's `generate_commit_message` is embedded from the point where
the HTTP response has arrived: the response is a status code plus body
text, and the Rust `response.status().is_success()` / `response.text()` /
`response.json::<T>()` calls become explicit operations on it.  A failed
`.json()` decode is the propagated `reqwest` decode error. -/

/-- An HTTP response as the clients observe it: numeric status code and
body text. -/
structure HttpResponse where
  status : Nat
  body : String

/-- Rust `reqwest::StatusCode::is_success`: the 2xx range. -/
def statusIsSuccess (status : Nat) : Bool :=
  200 ≤ status && status ≤ 299

/-- Rust `str::trim` (whitespace stripped from both ends; the whitespace
predicate is modelled by `Char.isWhitespace`). -/
def rust_trim (s : String) : String :=
  ⟨((s.data.dropWhile Char.isWhitespace).reverse.dropWhile Char.isWhitespace).reverse⟩

/-- The message `reqwest` reports when a `.json()` decode fails. -/
def JSON_DECODE_ERROR : String := "error decoding response body"

namespace openai

/-- Rust `MessageContent` of `src/ai/openai.rs`. -/
structure MessageContent where
  content : String
deriving DecidableEq

/-- Rust `Choice` of `src/ai/openai.rs`. -/
structure Choice where
  message : MessageContent
deriving DecidableEq

/-- Rust `OpenAIResponse` of `src/ai/openai.rs`. -/
structure OpenAIResponse where
  choices : List Choice
deriving DecidableEq

/-- Derived `Deserialize` for `MessageContent`. -/
def decodeMessageContent (j : Json) : Option MessageContent := do
  pure ⟨← (← j.getField "content").asStr⟩

/-- Derived `Deserialize` for `Choice`. -/
def decodeChoice (j : Json) : Option Choice := do
  pure ⟨← decodeMessageContent (← j.getField "message")⟩

/-- Derived `Deserialize` for `OpenAIResponse`. -/
def decodeOpenAIResponse (j : Json) : Option OpenAIResponse := do
  let es ← (← j.getField "choices").asArr
  pure ⟨← es.mapM decodeChoice⟩

/-- Derived `Deserialize` for `ErrorResponse`/`ErrorDetail` of
`src/ai/openai.rs` (`{"error": {"message": <string>}}`), composed with the
JSON text parse: the result of
`serde_json::from_str::<ErrorResponse>(&error_text)`, reduced to the
extracted `error.message`. -/
def parseErrorMessage (s : String) : Option String := do
  let j ← json_from_str s
  (← (← j.getField "error").getField "message").asStr

/-- Response handling of `Client::generate_commit_message` in
`src/ai/openai.rs` (note the copy-pasted "Claude" wording in both error
messages of the source). -/
def generate_commit_message (resp : HttpResponse) : Except String String :=
  if !statusIsSuccess resp.status then
    match parseErrorMessage resp.body with
    | some m => .error ("Claude API error: " ++ m)
    | none => .error ("HTTP error " ++ toString resp.status ++ ": " ++ resp.body)
  else
    match (json_from_str resp.body).bind decodeOpenAIResponse with
    | none => .error JSON_DECODE_ERROR
    | some r =>
      match r.choices.head? with
      | some choice => .ok (rust_trim choice.message.content)
      | none => .error "No response from Claude"

end openai

namespace mistral

/-- Rust `ResponseMessage` of `src/ai/mistral.rs`. -/
structure ResponseMessage where
  content : String
deriving DecidableEq

/-- Rust `Choice` of `src/ai/mistral.rs`. -/
structure Choice where
  message : ResponseMessage
deriving DecidableEq

/-- Rust `MistralResponse` of `src/ai/mistral.rs`. -/
structure MistralResponse where
  choices : List Choice
deriving DecidableEq

/-- Derived `Deserialize` for `ResponseMessage`. -/
def decodeResponseMessage (j : Json) : Option ResponseMessage := do
  pure ⟨← (← j.getField "content").asStr⟩

/-- Derived `Deserialize` for `Choice`. -/
def decodeChoice (j : Json) : Option Choice := do
  pure ⟨← decodeResponseMessage (← j.getField "message")⟩

/-- Derived `Deserialize` for `MistralResponse`. -/
def decodeMistralResponse (j : Json) : Option MistralResponse := do
  let es ← (← j.getField "choices").asArr
  pure ⟨← es.mapM decodeChoice⟩

/-- Rust `serde_json::from_str::<ErrorResponse>` of `src/ai/mistral.rs`
(`{"error": {"message": <string>}}`), reduced to the extracted
`error.message`. -/
def parseErrorMessage (s : String) : Option String := do
  let j ← json_from_str s
  (← (← j.getField "error").getField "message").asStr

/-- Response handling of `Client::generate_commit_message` in
`src/ai/mistral.rs`. -/
def generate_commit_message (resp : HttpResponse) : Except String String :=
  if !statusIsSuccess resp.status then
    match parseErrorMessage resp.body with
    | some m => .error ("Mistral API error: " ++ m)
    | none => .error ("HTTP error " ++ toString resp.status ++ ": " ++ resp.body)
  else
    match (json_from_str resp.body).bind decodeMistralResponse with
    | none => .error JSON_DECODE_ERROR
    | some r =>
      match r.choices.head? with
      | some choice => .ok (rust_trim choice.message.content)
      | none => .error "No response from Mistral"

end mistral

namespace claude

/-- Rust `Content` of `src/ai/claude.rs`: both the `text` field and the
(serde-renamed) `type` field are required by the derived `Deserialize`. -/
structure Content where
  text : String
  content_type : String
deriving DecidableEq

/-- Rust `ClaudeResponse` of `src/ai/claude.rs`. -/
structure ClaudeResponse where
  content : List Content
deriving DecidableEq

/-- Derived `Deserialize` for `Content` (`content_type` reads the JSON
field `"type"`). -/
def decodeContent (j : Json) : Option Content := do
  pure ⟨← (← j.getField "text").asStr, ← (← j.getField "type").asStr⟩

/-- Derived `Deserialize` for `ClaudeResponse`. -/
def decodeClaudeResponse (j : Json) : Option ClaudeResponse := do
  let es ← (← j.getField "content").asArr
  pure ⟨← es.mapM decodeContent⟩

/-- Rust `serde_json::from_str::<ErrorResponse>` of `src/ai/claude.rs`: both
the outer field and its inner `message` field are serde-renamed to
`"type"`, so the accepted shape is `{"type": {"type": <string>}}`; reduced
to the extracted message string. -/
def parseErrorMessage (s : String) : Option String := do
  let j ← json_from_str s
  (← (← j.getField "type").getField "type").asStr

/-- Response handling of `Client::generate_commit_message` in
`src/ai/claude.rs`. -/
def generate_commit_message (resp : HttpResponse) : Except String String :=
  if !statusIsSuccess resp.status then
    match parseErrorMessage resp.body with
    | some m => .error ("Claude API error: " ++ m)
    | none => .error ("HTTP error " ++ toString resp.status ++ ": " ++ resp.body)
  else
    match (json_from_str resp.body).bind decodeClaudeResponse with
    | none => .error JSON_DECODE_ERROR
    | some r =>
      match r.content.head? with
      | some content => .ok (rust_trim content.text)
      | none => .error "No response from Claude"

end claude

namespace gemini

/-- Rust `PartResponse` of `src/ai/gemini.rs`. -/
structure PartResponse where
  text : String
deriving DecidableEq

/-- Rust `ContentResponse` of `src/ai/gemini.rs`. -/
structure ContentResponse where
  parts : List PartResponse
deriving DecidableEq

/-- Rust `Candidate` of `src/ai/gemini.rs`. -/
structure Candidate where
  content : ContentResponse
deriving DecidableEq

/-- Rust `GeminiResponse` of `src/ai/gemini.rs`. -/
structure GeminiResponse where
  candidates : List Candidate
deriving DecidableEq

/-- Derived `Deserialize` for `PartResponse`. -/
def decodePartResponse (j : Json) : Option PartResponse := do
  pure ⟨← (← j.getField "text").asStr⟩

/-- Derived `Deserialize` for `ContentResponse`. -/
def decodeContentResponse (j : Json) : Option ContentResponse := do
  let es ← (← j.getField "parts").asArr
  pure ⟨← es.mapM decodePartResponse⟩

/-- Derived `Deserialize` for `Candidate`. -/
def decodeCandidate (j : Json) : Option Candidate := do
  pure ⟨← decodeContentResponse (← j.getField "content")⟩

/-- Derived `Deserialize` for `GeminiResponse`. -/
def decodeGeminiResponse (j : Json) : Option GeminiResponse := do
  let es ← (← j.getField "candidates").asArr
  pure ⟨← es.mapM decodeCandidate⟩

/-- Modelled from the spec: `src/ai/gemini.rs` defines no structured error
type, so the vendor's structured error body ("a vendor-specific structured
error body [whose] message [is] extract[ed]", per the spec) is modelled by
Google's error shape `{"error": {"message": <string>}}` — the same shape
the OpenAI and Mistral clients decode; reduced to the extracted message. -/
def vendorErrorMessage (s : String) : Option String := do
  let j ← json_from_str s
  (← (← j.getField "error").getField "message").asStr

/-- Response handling of `Client::generate_commit_message` in
`src/ai/gemini.rs`: a non-success status is reported raw (no structured
error parse exists in the source); a success response with no candidates
errors via `ok_or`, and a first candidate with no parts reaches the
copy-pasted "No response from Claude" branch. -/
def generate_commit_message (resp : HttpResponse) : Except String String :=
  if !statusIsSuccess resp.status then
    .error ("HTTP error " ++ toString resp.status ++ ": " ++ resp.body)
  else
    match (json_from_str resp.body).bind decodeGeminiResponse with
    | none => .error JSON_DECODE_ERROR
    | some r =>
      match r.candidates.head? with
      | none => .error "No candidates in Gemini response"
      | some cand =>
        match cand.content.parts.head? with
        | some content => .ok (rust_trim content.text)
        | none => .error "No response from Claude"

end gemini

/-! ## Configuration and credential resolution (`src/config.rs`)

The process environment is an explicit map from variable names to
optionally-present values. -/

/-- The process environment. -/
abbrev Env := String → Option String

/-- The persisted `Config` record of `src/config.rs`. -/
structure Config where
  claude_api_key : Option String
  openai_api_key : Option String
  gemini_api_key : Option String
  mistral_api_key : Option String
  default_model : Option Model
deriving DecidableEq

namespace Config

/-- Rust `Config::get_claude_api_key`: config value, else `CLAUDE_API_KEY`. -/
def get_claude_api_key (c : Config) (env : Env) : Option String :=
  c.claude_api_key.or (env "CLAUDE_API_KEY")

/-- Rust `Config::get_openai_api_key`: config value, else `OPENAI_API_KEY`. -/
def get_openai_api_key (c : Config) (env : Env) : Option String :=
  c.openai_api_key.or (env "OPENAI_API_KEY")

/-- Rust `Config::get_gemini_api_key`: config value, else `GEMINI_API_KEY`. -/
def get_gemini_api_key (c : Config) (env : Env) : Option String :=
  c.gemini_api_key.or (env "GEMINI_API_KEY")

/-- Rust `Config::get_mistral_api_key`: config value, else `MISTRAL_API_KEY`. -/
def get_mistral_api_key (c : Config) (env : Env) : Option String :=
  c.mistral_api_key.or (env "MISTRAL_API_KEY")

/-- Rust `Config::validate_model_config`: the guarded match chain; `{}` formats
the model via its `Display` impl (`to_api_str`). -/
def validate_model_config (c : Config) (env : Env) (m : Model) :
    Except String Unit :=
  if m.is_claude && (c.get_claude_api_key env).isNone then
    .error ("Claude API key required for " ++ m.to_api_str ++
      ". Set with --set-claude-key or CLAUDE_API_KEY env var")
  else if m.is_openai && (c.get_openai_api_key env).isNone then
    .error ("OpenAI API key required for " ++ m.to_api_str ++
      ". Set with --set-openai-key or OPENAI_API_KEY env var")
  else if m.is_gemini && (c.get_gemini_api_key env).isNone then
    .error ("Gemini API key required for " ++ m.to_api_str ++
      ". Set with --set-gemini-key or GEMINI_API_KEY env var")
  else if m.is_mistral && (c.get_mistral_api_key env).isNone then
    .error ("Mistral API key required for " ++ m.to_api_str ++
      ". Set with --set-mistral-key or MISTRAL_API_KEY env var")
  else .ok ()

/-- Rust `Config::get_api_key_for_model`: dispatch on the vendor tag. -/
def get_api_key_for_model (c : Config) (env : Env) (m : Model) :
    Option String :=
  if m.is_claude then c.get_claude_api_key env
  else if m.is_openai then c.get_openai_api_key env
  else if m.is_gemini then c.get_gemini_api_key env
  else if m.is_mistral then c.get_mistral_api_key env
  else none

/-- Rust `Config::get_default_model`: the persisted default, else the built-in
fallback `Model::Haiku4_5`. -/
def get_default_model (c : Config) : Model :=
  c.default_model.getD Model.Haiku4_5

end Config

/-! ## Client factory (`create_client` in `src/ai.rs`)

A constructed client is a vendor-tagged value holding the injected
credential and model; a `Client::new` whose `assert!` would fail, and the
factory's `panic!` branch, are modelled as `none`. -/

/-- A constructed provider client (vendor tag, credential, model). -/
inductive ProviderClient where
  | claude (api_key : String) (model : Model)
  | openai (api_key : String) (model : Model)
  | gemini (api_key : String) (model : Model)
  | mistral (api_key : String) (model : Model)
deriving DecidableEq

/-- Rust `claude::Client::new` (`assert!(model.is_claude())`). -/
def claude.Client.new (api_key : String) (model : Model) : Option ProviderClient :=
  if model.is_claude then some (.claude api_key model) else none

/-- Rust `openai::Client::new` (`assert!(model.is_openai())`). -/
def openai.Client.new (api_key : String) (model : Model) : Option ProviderClient :=
  if model.is_openai then some (.openai api_key model) else none

/-- Rust `gemini::Client::new` (`assert!(model.is_gemini())`). -/
def gemini.Client.new (api_key : String) (model : Model) : Option ProviderClient :=
  if model.is_gemini then some (.gemini api_key model) else none

/-- Rust `mistral::Client::new` (`assert!(model.is_mistral())`). -/
def mistral.Client.new (api_key : String) (model : Model) : Option ProviderClient :=
  if model.is_mistral then some (.mistral api_key model) else none

/-- Rust `create_client` of `src/ai.rs`: dispatch on the vendor predicates; the
final `else` is the source's `panic!("Unsupported model")`. -/
def create_client (model : Model) (api_key : String) : Option ProviderClient :=
  if model.is_claude then claude.Client.new api_key model
  else if model.is_openai then openai.Client.new api_key model
  else if model.is_gemini then gemini.Client.new api_key model
  else if model.is_mistral then mistral.Client.new api_key model
  else none

/-! ## Editor flow (`src/main.rs`) -/

/-- Rust `str::trim_end` (trailing whitespace stripped; the whitespace
predicate is modelled by `Char.isWhitespace`). -/
def rust_trim_end (s : String) : String :=
  ⟨(s.data.reverse.dropWhile Char.isWhitespace).reverse⟩

/-- The after-loop logic of `parse_editor_command`: reject an unclosed
quote, push the final in-progress token, reject an empty token list. -/
def finish_editor_tokens (current : List Char) (parts : List String)
    (in_single in_double : Bool) : Except String (List String) :=
  if in_single || in_double then
    .error "Unclosed quote in EDITOR environment variable"
  else
    let parts := if !current.isEmpty then parts ++ [⟨current.reverse⟩] else parts
    if parts.isEmpty then .error "EDITOR environment variable is empty"
    else .ok parts

/-- The character loop of `parse_editor_command`: `current` is the
in-progress token (reversed), `parts` the completed tokens.  A lone
trailing backslash consumes the end of input, so that case finishes
directly. -/
def parse_editor_go : List Char → List Char → List String → Bool → Bool →
    Except String (List String)
  | [], current, parts, in_single, in_double =>
    finish_editor_tokens current parts in_single in_double
  | ch :: rest, current, parts, in_single, in_double =>
    if ch = '\x27' && !in_double then
      parse_editor_go rest current parts (!in_single) in_double
    else if ch = '"' && !in_single then
      parse_editor_go rest current parts in_single (!in_double)
    else if ch = '\\' && !in_single then
      match rest with
      | [] => finish_editor_tokens current parts in_single in_double
      | n :: rest2 => parse_editor_go rest2 (n :: current) parts in_single in_double
    else if ch.isWhitespace && !in_single && !in_double then
      if !current.isEmpty then
        parse_editor_go rest [] (parts ++ [⟨current.reverse⟩]) in_single in_double
      else parse_editor_go rest current parts in_single in_double
    else parse_editor_go rest (ch :: current) parts in_single in_double

/-- Rust `parse_editor_command` of `src/main.rs`: split the `EDITOR` value into
a command line, honouring quotes and backslash escapes. -/
def parse_editor_command (editor : String) : Except String (List String) :=
  parse_editor_go editor.data [] [] false false

/-- The outcome of spawning the editor process on the temp file: launch
failure, or exit status together with the file content the editor left
behind. -/
inductive EditorRun where
  | launchFailed (err : String)
  | exited (success : Bool) (edited : String)

/-- Rust `edit_commit_message_inner` of `src/main.rs`, from the point where the
temp file holds `initial_message`: resolve `EDITOR` (default `"vi"`),
parse it, run the editor (outcome supplied as a value), and on success
return the edited file content `trim_end`ed.  (`edit_commit_message` wraps
this with an error-type conversion only.) -/
def edit_commit_message_inner (initial_message : String)
    (editorVar : Option String) (run : EditorRun) : Except String String :=
  let _ := initial_message
  let editor := editorVar.getD "vi"
  match parse_editor_command editor with
  | .error e => .error e
  | .ok parts =>
    match parts.head? with
    | none => .error "EDITOR environment variable is empty"
    | some _program =>
      match run with
      | .launchFailed err => .error ("Failed to launch editor: " ++ err)
      | .exited false _ => .error "Editor exited with a non-zero status"
      | .exited true edited => .ok (rust_trim_end edited)

/-! ## Orchestration (`main` in `src/main.rs`)

`main` is embedded as a function of the parsed CLI arguments, the loaded
config, the environment, and the outcomes of the external effects it may
perform (config save, git queries, the provider call, the editor run, the
commit).  A `.ok` result is the Rust `Ok(())` — process exit code zero —
tagged with which early return produced it; a `.error` result is the Rust
`Err(e)` — nonzero exit with message `e`. -/

/-- The parsed CLI arguments (`Cli` of `src/cli.rs`, plus the `context`
flag that `src/main.rs` reads). -/
structure CliArgs where
  set_claude_key : Option String
  set_openai_key : Option String
  set_gemini_key : Option String
  set_mistral_key : Option String
  set_default_model : Option Model
  list_models : Bool
  model : Option Model
  no_commit : Bool
  edit : Bool
  exclude : List String
  only : List String
  context : Option String

/-- Outcomes of the external effects `main` may perform, passed as
values. -/
structure Effects where
  /-- Outcome of `Config::save` (the at most one config write per run). -/
  saveResult : Except String Unit
  /-- Outcome of `Git::get_staged_files`. -/
  stagedFiles : Except String (List String)
  /-- Outcome of `Git::get_staged_diff`. -/
  diffResult : Except String String
  /-- Outcome of the provider's network call
  (`client.generate_commit_message`). -/
  generateResult : Except String String
  /-- The `EDITOR` environment variable. -/
  editorVar : Option String
  /-- Outcome of running the editor. -/
  editorRun : EditorRun
  /-- Outcome of `Git::commit`. -/
  commitResult : Except String Unit

/-- Which zero-exit path `main` took. -/
inductive MainOk where
  | keySaved
  | defaultModelSet
  | modelsListed
  | noStagedFiles
  | noFilteredFiles
  | generated (message : String) (committed : Bool)
deriving DecidableEq

/-- The control flow of `main` in `src/main.rs`. -/
def mainModel (cli : CliArgs) (config : Config) (env : Env) (fx : Effects) :
    Except String MainOk :=
  if cli.set_claude_key.isSome then
    match fx.saveResult with
    | .error e => .error e
    | .ok _ => .ok .keySaved
  else if cli.set_openai_key.isSome then
    match fx.saveResult with
    | .error e => .error e
    | .ok _ => .ok .keySaved
  else if cli.set_gemini_key.isSome then
    match fx.saveResult with
    | .error e => .error e
    | .ok _ => .ok .keySaved
  else if cli.set_mistral_key.isSome then
    match fx.saveResult with
    | .error e => .error e
    | .ok _ => .ok .keySaved
  else if cli.set_default_model.isSome then
    match fx.saveResult with
    | .error e => .error e
    | .ok _ => .ok .defaultModelSet
  else if cli.list_models then .ok .modelsListed
  else
    let model := cli.model.getD config.get_default_model
    match config.validate_model_config env model with
    | .error e => .error e
    | .ok _ =>
      match config.get_api_key_for_model env model with
      | none => .error ("No API key found for model " ++ model.to_api_str)
      | some api_key =>
        match fx.stagedFiles with
        | .error e => .error e
        | .ok staged =>
          if staged.isEmpty then .ok .noStagedFiles
          else
            let filtered := apply_file_filters staged cli.only cli.exclude
            if filtered.isEmpty then .ok .noFilteredFiles
            else
              match fx.diffResult with
              | .error e => .error e
              | .ok _diff =>
                match create_client model api_key with
                | none => .error "Unsupported model"
                | some _client =>
                  match fx.generateResult with
                  | .error e => .error e
                  | .ok msg0 =>
                    match
                      (if cli.edit then
                        edit_commit_message_inner msg0 fx.editorVar fx.editorRun
                       else .ok msg0) with
                    | .error e => .error e
                    | .ok msg =>
                      if !cli.no_commit then
                        match fx.commitResult with
                        | .error e => .error e
                        | .ok _ => .ok (.generated msg true)
                      else .ok (.generated msg false)

/-! ## Substring containment -/

/-- The string `needle` occurs contiguously (verbatim) inside `hay`. -/
def strContains (hay needle : String) : Prop :=
  needle.data <:+: hay.data

instance (hay needle : String) : Decidable (strContains hay needle) :=
  inferInstanceAs (Decidable (needle.data <:+: hay.data))

/-! ## Spec-side expectations -/

/-- Spec-side expectation: the vendor name the claim expects a validation
error message to mention, per the selected model's vendor. -/
def expected_vendor_name (m : Model) : String :=
  if m.is_claude then "Claude"
  else if m.is_openai then "OpenAI"
  else if m.is_gemini then "Gemini"
  else "Mistral"

/-- Spec-side expectation: the set-key CLI flag the claim expects a
validation error message to mention. -/
def expected_set_key_flag (m : Model) : String :=
  if m.is_claude then "--set-claude-key"
  else if m.is_openai then "--set-openai-key"
  else if m.is_gemini then "--set-gemini-key"
  else "--set-mistral-key"

/-- Spec-side expectation: the environment variable the claim expects a
validation error message to mention. -/
def expected_env_var (m : Model) : String :=
  if m.is_claude then "CLAUDE_API_KEY"
  else if m.is_openai then "OPENAI_API_KEY"
  else if m.is_gemini then "GEMINI_API_KEY"
  else "MISTRAL_API_KEY"

/-- Spec-side (the amended exit-behaviour claim): the input conditions
under which the run exits zero — an early set-key or set-default-model
exit whose config save succeeded, the list-models exit, or a generation
run in which a credential resolves for the selected model's vendor, the
staged-file query succeeds, and then either the staged set is empty, or
the filtered set is empty, or every remaining step (diff query, provider
call, optional edit, optional commit) succeeds.  (The editor flow's
success does not depend on the initial message content, so it is stated
against the empty initial message.) -/
def mainShouldSucceed (cli : CliArgs) (config : Config) (env : Env)
    (fx : Effects) : Prop :=
  if cli.set_claude_key.isSome || cli.set_openai_key.isSome ||
      cli.set_gemini_key.isSome || cli.set_mistral_key.isSome ||
      cli.set_default_model.isSome then
    fx.saveResult.isOk = true
  else if cli.list_models then True
  else
    (config.get_api_key_for_model env
        (cli.model.getD config.get_default_model)).isSome = true ∧
    ∃ staged, fx.stagedFiles = .ok staged ∧
      (staged = [] ∨
       apply_file_filters staged cli.only cli.exclude = [] ∨
       (fx.diffResult.isOk = true ∧
        fx.generateResult.isOk = true ∧
        (cli.edit = false ∨
          (edit_commit_message_inner "" fx.editorVar fx.editorRun).isOk = true) ∧
        (cli.no_commit = true ∨ fx.commitResult.isOk = true)))

end Convmit

deriving instance DecidableEq for Except

namespace Convmit

theorem strContains_refl (s : String) : strContains s s := List.infix_rfl

theorem strContains_append_left {a needle : String} (b : String)
    (h : strContains a needle) : strContains (a ++ b) needle := by
  refine h.trans ?_
  show a.data <:+: (a ++ b).data
  rw [String.data_append]
  exact ⟨[], b.data, by simp⟩

theorem strContains_append_right (a : String) {b needle : String}
    (h : strContains b needle) : strContains (a ++ b) needle := by
  refine h.trans ?_
  show b.data <:+: (a ++ b).data
  rw [String.data_append]
  exact ⟨a.data, [], by simp⟩

theorem joinNewline_contains_mem (files : List String) :
    ∀ f ∈ files, strContains (joinNewline files) f := by
  induction files with
  | nil => intro f h; cases h
  | cons a rest ih =>
    intro f h
    cases rest with
    | nil =>
      have hf : f = a := by simpa using h
      subst hf
      exact strContains_refl f
    | cons b rest2 =>
      rcases List.mem_cons.mp h with rfl | hmem
      · show strContains (f ++ "\n" ++ joinNewline (b :: rest2)) f
        exact strContains_append_left _ (strContains_append_left "\n" (strContains_refl f))
      · show strContains (a ++ "\n" ++ joinNewline (b :: rest2)) f
        exact strContains_append_right _ (ih f hmem)

/-! ## Claim theorems -/

/-- C4: for every model in the closed catalog `all_models`, parsing its CLI
identifier with `Model::from_str` succeeds and returns the same model — the
CLI-identifier-to-Model mapping round-trips over the catalog. -/
theorem cli_name_from_str_round_trip :
    ∀ m ∈ Model.all_models, Model.from_str (Model.cli_name m) = Except.ok m := by
  decide

/-- Witness for C4 at the concrete catalog model `Sonnet4`. -/
theorem cli_name_from_str_round_trip_witness :
    Model.from_str (Model.cli_name Model.Sonnet4) = Except.ok Model.Sonnet4 :=
  cli_name_from_str_round_trip Model.Sonnet4 (by decide)

/-- C5: `apply_file_filters` keeps exactly the staged files that are in the
only-set (or all of them when the only-list is empty) and not in the
exclude-set; and the four concrete scenarios of the specification hold. -/
theorem apply_file_filters_only_exclude_semantics :
    (∀ (staged only exclude : List String) (f : String),
        f ∈ apply_file_filters staged only exclude ↔
          f ∈ staged ∧ (only = [] ∨ f ∈ only) ∧ f ∉ exclude)
    ∧ apply_file_filters ["A", "B", "C"] ["A", "B"] [] = ["A", "B"]
    ∧ apply_file_filters ["A", "B", "C"] ["A", "B"] ["B"] = ["A"]
    ∧ apply_file_filters ["A", "B", "C"] [] ["A"] = ["B", "C"]
    ∧ apply_file_filters ["A", "B", "C"] ["D"] [] = [] := by
  refine ⟨?_, by decide, by decide, by decide, by decide⟩
  intro staged only exclude f
  have hc : ∀ (l : List String) (x : String), (l.contains x = true) ↔ x ∈ l :=
    fun l x => List.elem_iff
  constructor
  · intro h
    obtain ⟨h1, h2⟩ := List.mem_filter.mp h
    simp only [Bool.and_eq_true, Bool.or_eq_true, Bool.not_eq_true'] at h2
    obtain ⟨h3, h4⟩ := h2
    refine ⟨h1, ?_, ?_⟩
    · rcases h3 with h3 | h3
      · exact Or.inl (List.isEmpty_iff.mp h3)
      · exact Or.inr ((hc _ _).mp h3)
    · intro hf
      have := (hc _ _).mpr hf
      rw [h4] at this
      exact Bool.false_ne_true this
  · rintro ⟨h1, h2, h3⟩
    refine List.mem_filter.mpr ⟨h1, ?_⟩
    simp only [Bool.and_eq_true, Bool.or_eq_true, Bool.not_eq_true']
    refine ⟨?_, ?_⟩
    · rcases h2 with rfl | h2
      · exact Or.inl rfl
      · exact Or.inr ((hc _ _).mpr h2)
    · cases hq : exclude.contains f
      · rfl
      · exact absurd ((hc _ _).mp hq) h3

/-- C9: the output of `apply_file_filters` is a sublist of the input staged
list — it preserves relative order, introduces no new path, and never
increases any path's multiplicity. -/
theorem apply_file_filters_sublist_of_staged
    (staged only exclude : List String) :
    (apply_file_filters staged only exclude).Sublist staged ∧
    apply_file_filters staged only exclude ⊆ staged ∧
    ∀ f, (apply_file_filters staged only exclude).count f ≤ staged.count f := by
  refine ⟨List.filter_sublist _, (List.filter_sublist _).subset, ?_⟩
  intro f
  exact (List.filter_sublist _).count_le f

/-- C6: the prompt built by `build_prompt` contains the diff text verbatim,
the newline-joined file list verbatim (so the file paths appear in the
caller-supplied order), and each input file path verbatim. -/
theorem build_prompt_contains_files_and_diff (files : List String) (diff : String) :
    strContains (build_prompt files diff) diff ∧
    strContains (build_prompt files diff) (joinNewline files) ∧
    ∀ f ∈ files, strContains (build_prompt files diff) f := by
  refine ⟨?_, ?_, ?_⟩
  · exact strContains_append_right _ (strContains_refl diff)
  · exact strContains_append_left _ (strContains_append_left _
      (strContains_append_right _ (strContains_refl _)))
  · intro f hf
    exact strContains_append_left _ (strContains_append_left _
      (strContains_append_right _ (joinNewline_contains_mem files f hf)))

/-- Witness for C6 at a concrete file list and diff. -/
theorem build_prompt_contains_files_and_diff_witness :
    strContains (build_prompt ["a.rs", "b.rs"] "+x") "+x" ∧
    strContains (build_prompt ["a.rs", "b.rs"] "+x") (joinNewline ["a.rs", "b.rs"]) ∧
    strContains (build_prompt ["a.rs", "b.rs"] "+x") "b.rs" :=
  ⟨(build_prompt_contains_files_and_diff ["a.rs", "b.rs"] "+x").1,
   (build_prompt_contains_files_and_diff ["a.rs", "b.rs"] "+x").2.1,
   (build_prompt_contains_files_and_diff ["a.rs", "b.rs"] "+x").2.2 "b.rs" (by decide)⟩

/-- C8: every catalog model is claimed by exactly one of the four vendor
predicates, and `create_client` constructs the matching provider client —
neither the factory's `panic!` branch nor a constructor's vendor `assert!`
is ever hit. -/
theorem create_client_vendor_dispatch_total :
    ∀ m ∈ Model.all_models, ∀ key : String,
      ((if m.is_claude then 1 else 0) + (if m.is_openai then 1 else 0) +
        (if m.is_gemini then 1 else 0) + (if m.is_mistral then 1 else 0) = 1)
      ∧ ∃ c, create_client m key = some c ∧
          ((m.is_claude = true ∧ c = ProviderClient.claude key m) ∨
           (m.is_openai = true ∧ c = ProviderClient.openai key m) ∨
           (m.is_gemini = true ∧ c = ProviderClient.gemini key m) ∨
           (m.is_mistral = true ∧ c = ProviderClient.mistral key m)) := by
  intro m hm key
  cases m <;> first
    | exact ⟨by decide, _, rfl, Or.inl ⟨rfl, rfl⟩⟩
    | exact ⟨by decide, _, rfl, Or.inr (Or.inl ⟨rfl, rfl⟩)⟩
    | exact ⟨by decide, _, rfl, Or.inr (Or.inr (Or.inl ⟨rfl, rfl⟩))⟩
    | exact ⟨by decide, _, rfl, Or.inr (Or.inr (Or.inr ⟨rfl, rfl⟩))⟩

/-- C1 (evaluation of the code at the failing inputs): on a successful HTTP
response with zero generated candidates, the OpenAI client reports
"No response from Claude" and the Gemini client reports either
"No candidates in Gemini response" (zero candidates) or
"No response from Claude" (a candidate with zero parts) — neither message
names the client's own vendor as "no response from <vendor>" does for
Mistral and Claude. -/
theorem zero_candidate_vendor_messages :
    openai.generate_commit_message ⟨200, "\x7b\"choices\": []\x7d"⟩ =
      .error "No response from Claude"
    ∧ gemini.generate_commit_message ⟨200, "\x7b\"candidates\": []\x7d"⟩ =
      .error "No candidates in Gemini response"
    ∧ gemini.generate_commit_message
        ⟨200, "\x7b\"candidates\": [\x7b\"content\": \x7b\"parts\": []\x7d\x7d]\x7d"⟩ =
      .error "No response from Claude"
    ∧ mistral.generate_commit_message ⟨200, "\x7b\"choices\": []\x7d"⟩ =
      .error "No response from Mistral"
    ∧ claude.generate_commit_message ⟨200, "\x7b\"content\": []\x7d"⟩ =
      .error "No response from Claude"
    ∧ "No response from Claude" ≠ "No response from OpenAI"
    ∧ "No candidates in Gemini response" ≠ "No response from Gemini" := by
  decide

/-- C2 counterexample: a non-success Gemini response whose body parses as
the vendor error shape with message `quota "exceeded"` (note the escaped
quotes in the raw JSON).  The Gemini client performs no structured parse
and reports the raw body, whose escaped text does not contain the parsed
message field. -/
theorem gemini_error_no_structured_parse_counterexample :
    gemini.vendorErrorMessage
        "\x7b\"error\": \x7b\"message\": \"quota \\\"exceeded\\\"\"\x7d\x7d" =
      some "quota \"exceeded\""
    ∧ gemini.generate_commit_message
        ⟨400, "\x7b\"error\": \x7b\"message\": \"quota \\\"exceeded\\\"\"\x7d\x7d"⟩ =
      .error ("HTTP error 400: " ++
        "\x7b\"error\": \x7b\"message\": \"quota \\\"exceeded\\\"\"\x7d\x7d")
    ∧ ¬ strContains
        ("HTTP error 400: " ++
          "\x7b\"error\": \x7b\"message\": \"quota \\\"exceeded\\\"\"\x7d\x7d")
        "quota \"exceeded\"" := by
  decide

theorem strContains_http_error (status : Nat) (body : String) :
    strContains ("HTTP error " ++ toString status ++ ": " ++ body) (toString status) ∧
    strContains ("HTTP error " ++ toString status ++ ": " ++ body) body := by
  constructor
  · exact strContains_append_left _ (strContains_append_left _
      (strContains_append_right _ (strContains_refl _)))
  · exact strContains_append_right _ (strContains_refl _)

theorem error_branch_structure (status : Nat) (body pfx : String)
    (parse : Option String) :
    ∀ e, (match parse with
          | some m => Except.error (pfx ++ m)
          | none =>
            (Except.error ("HTTP error " ++ toString status ++ ": " ++ body) :
              Except String String)) = .error e →
      (∀ m, parse = some m → strContains e m)
      ∧ (parse = none → strContains e (toString status) ∧ strContains e body) := by
  intro e he
  cases parse with
  | some m =>
    have he' : e = pfx ++ m := by cases he; rfl
    subst he'
    refine ⟨?_, ?_⟩
    · intro m' hm'
      obtain rfl : m = m' := Option.some.inj hm'
      exact strContains_append_right pfx (strContains_refl m)
    · intro hn; cases hn
  | none =>
    have he' : e = "HTTP error " ++ toString status ++ ": " ++ body := by
      cases he; rfl
    subst he'
    refine ⟨?_, ?_⟩
    · intro m' hm'; cases hm'
    · intro _h; exact strContains_http_error status body

/-- C2 (amended): on every non-success HTTP response, the Claude, OpenAI
and Mistral clients return an error containing the parsed structured error
body's message field when the body parses, and the raw status code and
body text otherwise; the Gemini client performs no structured parse and
always reports the raw status code and body text. -/
theorem provider_error_message_paths (status : Nat) (body : String)
    (h : statusIsSuccess status = false) :
    (∀ e, openai.generate_commit_message ⟨status, body⟩ = .error e →
      (∀ m, openai.parseErrorMessage body = some m → strContains e m)
      ∧ (openai.parseErrorMessage body = none →
          strContains e (toString status) ∧ strContains e body))
    ∧ (∀ e, mistral.generate_commit_message ⟨status, body⟩ = .error e →
      (∀ m, mistral.parseErrorMessage body = some m → strContains e m)
      ∧ (mistral.parseErrorMessage body = none →
          strContains e (toString status) ∧ strContains e body))
    ∧ (∀ e, claude.generate_commit_message ⟨status, body⟩ = .error e →
      (∀ m, claude.parseErrorMessage body = some m → strContains e m)
      ∧ (claude.parseErrorMessage body = none →
          strContains e (toString status) ∧ strContains e body))
    ∧ (∀ e, gemini.generate_commit_message ⟨status, body⟩ = .error e →
        strContains e (toString status) ∧ strContains e body) := by
  have hopenai : openai.generate_commit_message ⟨status, body⟩ =
      match openai.parseErrorMessage body with
      | some m => .error ("Claude API error: " ++ m)
      | none => .error ("HTTP error " ++ toString status ++ ": " ++ body) := by
    simp only [openai.generate_commit_message, h, Bool.not_false, if_true]
  have hmistral : mistral.generate_commit_message ⟨status, body⟩ =
      match mistral.parseErrorMessage body with
      | some m => .error ("Mistral API error: " ++ m)
      | none => .error ("HTTP error " ++ toString status ++ ": " ++ body) := by
    simp only [mistral.generate_commit_message, h, Bool.not_false, if_true]
  have hclaude : claude.generate_commit_message ⟨status, body⟩ =
      match claude.parseErrorMessage body with
      | some m => .error ("Claude API error: " ++ m)
      | none => .error ("HTTP error " ++ toString status ++ ": " ++ body) := by
    simp only [claude.generate_commit_message, h, Bool.not_false, if_true]
  have hgemini : gemini.generate_commit_message ⟨status, body⟩ =
      .error ("HTTP error " ++ toString status ++ ": " ++ body) := by
    simp only [gemini.generate_commit_message, h, Bool.not_false, if_true]
  refine ⟨?_, ?_, ?_, ?_⟩
  · rw [hopenai]; exact error_branch_structure status body _ _
  · rw [hmistral]; exact error_branch_structure status body _ _
  · rw [hclaude]; exact error_branch_structure status body _ _
  · intro e he
    rw [hgemini] at he
    have he' : e = "HTTP error " ++ toString status ++ ": " ++ body := by
      cases he; rfl
    subst he'
    exact strContains_http_error status body

/-- Witness for C2 (amended) at status 500 and an unparseable body. -/
theorem provider_error_message_paths_witness :
    (∀ e, openai.generate_commit_message ⟨500, "oops"⟩ = .error e →
      (∀ m, openai.parseErrorMessage "oops" = some m → strContains e m)
      ∧ (openai.parseErrorMessage "oops" = none →
          strContains e (toString 500) ∧ strContains e "oops"))
    ∧ (∀ e, mistral.generate_commit_message ⟨500, "oops"⟩ = .error e →
      (∀ m, mistral.parseErrorMessage "oops" = some m → strContains e m)
      ∧ (mistral.parseErrorMessage "oops" = none →
          strContains e (toString 500) ∧ strContains e "oops"))
    ∧ (∀ e, claude.generate_commit_message ⟨500, "oops"⟩ = .error e →
      (∀ m, claude.parseErrorMessage "oops" = some m → strContains e m)
      ∧ (claude.parseErrorMessage "oops" = none →
          strContains e (toString 500) ∧ strContains e "oops"))
    ∧ (∀ e, gemini.generate_commit_message ⟨500, "oops"⟩ = .error e →
        strContains e (toString 500) ∧ strContains e "oops") :=
  provider_error_message_paths 500 "oops" (by decide)

theorem strContains_cat_left (a b c needle : String) (h : strContains a needle) :
    strContains (a ++ b ++ c) needle :=
  strContains_append_left c (strContains_append_left b h)

theorem strContains_cat_right (a b c needle : String) (h : strContains c needle) :
    strContains (a ++ b ++ c) needle :=
  strContains_append_right (a ++ b) h

theorem validate_spec_claude (c : Config) (env : Env) (m : Model)
    (h1 : m.is_claude = true) (h2 : m.is_openai = false)
    (h3 : m.is_gemini = false) (h4 : m.is_mistral = false) :
    (c.validate_model_config env m = .ok () ↔
      (c.get_api_key_for_model env m).isSome = true)
    ∧ ∀ msg, c.validate_model_config env m = .error msg →
        strContains msg (expected_vendor_name m) ∧
        strContains msg (expected_set_key_flag m) ∧
        strContains msg (expected_env_var m) := by
  simp only [Config.validate_model_config, Config.get_api_key_for_model,
    expected_vendor_name, expected_set_key_flag, expected_env_var,
    h1, h2, h3, h4, Bool.true_and, Bool.false_and, if_true, if_false]
  cases hk : c.get_claude_api_key env with
  | some v => simp
  | none =>
    simp only [Option.isNone_none, if_true, Option.isSome_none]
    refine ⟨by simp, ?_⟩
    intro msg hmsg
    have : msg = "Claude API key required for " ++ m.to_api_str ++
        ". Set with --set-claude-key or CLAUDE_API_KEY env var" := by
      cases hmsg; rfl
    subst this
    exact ⟨strContains_cat_left _ _ _ _ (by decide),
      strContains_cat_right _ _ _ _ (by decide),
      strContains_cat_right _ _ _ _ (by decide)⟩

theorem validate_spec_openai (c : Config) (env : Env) (m : Model)
    (h1 : m.is_claude = false) (h2 : m.is_openai = true)
    (h3 : m.is_gemini = false) (h4 : m.is_mistral = false) :
    (c.validate_model_config env m = .ok () ↔
      (c.get_api_key_for_model env m).isSome = true)
    ∧ ∀ msg, c.validate_model_config env m = .error msg →
        strContains msg (expected_vendor_name m) ∧
        strContains msg (expected_set_key_flag m) ∧
        strContains msg (expected_env_var m) := by
  simp only [Config.validate_model_config, Config.get_api_key_for_model,
    expected_vendor_name, expected_set_key_flag, expected_env_var,
    h1, h2, h3, h4, Bool.true_and, Bool.false_and, if_true, if_false]
  cases hk : c.get_openai_api_key env with
  | some v => simp
  | none =>
    simp only [Option.isNone_none, if_true, Option.isSome_none]
    refine ⟨by simp, ?_⟩
    intro msg hmsg
    have : msg = "OpenAI API key required for " ++ m.to_api_str ++
        ". Set with --set-openai-key or OPENAI_API_KEY env var" := by
      cases hmsg; rfl
    subst this
    exact ⟨strContains_cat_left _ _ _ _ (by decide),
      strContains_cat_right _ _ _ _ (by decide),
      strContains_cat_right _ _ _ _ (by decide)⟩

theorem validate_spec_gemini (c : Config) (env : Env) (m : Model)
    (h1 : m.is_claude = false) (h2 : m.is_openai = false)
    (h3 : m.is_gemini = true) (h4 : m.is_mistral = false) :
    (c.validate_model_config env m = .ok () ↔
      (c.get_api_key_for_model env m).isSome = true)
    ∧ ∀ msg, c.validate_model_config env m = .error msg →
        strContains msg (expected_vendor_name m) ∧
        strContains msg (expected_set_key_flag m) ∧
        strContains msg (expected_env_var m) := by
  simp only [Config.validate_model_config, Config.get_api_key_for_model,
    expected_vendor_name, expected_set_key_flag, expected_env_var,
    h1, h2, h3, h4, Bool.true_and, Bool.false_and, if_true, if_false]
  cases hk : c.get_gemini_api_key env with
  | some v => simp
  | none =>
    simp only [Option.isNone_none, if_true, Option.isSome_none]
    refine ⟨by simp, ?_⟩
    intro msg hmsg
    have : msg = "Gemini API key required for " ++ m.to_api_str ++
        ". Set with --set-gemini-key or GEMINI_API_KEY env var" := by
      cases hmsg; rfl
    subst this
    exact ⟨strContains_cat_left _ _ _ _ (by decide),
      strContains_cat_right _ _ _ _ (by decide),
      strContains_cat_right _ _ _ _ (by decide)⟩

theorem validate_spec_mistral (c : Config) (env : Env) (m : Model)
    (h1 : m.is_claude = false) (h2 : m.is_openai = false)
    (h3 : m.is_gemini = false) (h4 : m.is_mistral = true) :
    (c.validate_model_config env m = .ok () ↔
      (c.get_api_key_for_model env m).isSome = true)
    ∧ ∀ msg, c.validate_model_config env m = .error msg →
        strContains msg (expected_vendor_name m) ∧
        strContains msg (expected_set_key_flag m) ∧
        strContains msg (expected_env_var m) := by
  simp only [Config.validate_model_config, Config.get_api_key_for_model,
    expected_vendor_name, expected_set_key_flag, expected_env_var,
    h1, h2, h3, h4, Bool.true_and, Bool.false_and, if_true, if_false]
  cases hk : c.get_mistral_api_key env with
  | some v => simp
  | none =>
    simp only [Option.isNone_none, if_true, Option.isSome_none]
    refine ⟨by simp, ?_⟩
    intro msg hmsg
    have : msg = "Mistral API key required for " ++ m.to_api_str ++
        ". Set with --set-mistral-key or MISTRAL_API_KEY env var" := by
      cases hmsg; rfl
    subst this
    exact ⟨strContains_cat_left _ _ _ _ (by decide),
      strContains_cat_right _ _ _ _ (by decide),
      strContains_cat_right _ _ _ _ (by decide)⟩

/-- C7: for every config state, environment, and catalog model,
`validate_model_config` succeeds exactly when a credential resolves for the
model's vendor (config field or vendor environment variable), and any
validation error message mentions the vendor, the set-key flag, and the
environment variable. -/
theorem validate_model_config_iff_credential :
    ∀ (c : Config) (env : Env), ∀ m ∈ Model.all_models,
      (c.validate_model_config env m = .ok () ↔
        (c.get_api_key_for_model env m).isSome = true)
      ∧ ∀ msg, c.validate_model_config env m = .error msg →
          strContains msg (expected_vendor_name m) ∧
          strContains msg (expected_set_key_flag m) ∧
          strContains msg (expected_env_var m) := by
  intro c env m hm
  cases m <;> first
    | exact validate_spec_claude c env _ rfl rfl rfl rfl
    | exact validate_spec_openai c env _ rfl rfl rfl rfl
    | exact validate_spec_gemini c env _ rfl rfl rfl rfl
    | exact validate_spec_mistral c env _ rfl rfl rfl rfl

/-- Witness for C7: a config with no credentials and an empty environment,
at the concrete catalog model `Sonnet4`. -/
theorem validate_model_config_iff_credential_witness :
    ((Config.mk none none none none none).validate_model_config
        (fun _ => none) Model.Sonnet4 = .ok () ↔
      ((Config.mk none none none none none).get_api_key_for_model
        (fun _ => none) Model.Sonnet4).isSome = true)
    ∧ ∀ msg, (Config.mk none none none none none).validate_model_config
        (fun _ => none) Model.Sonnet4 = .error msg →
        strContains msg (expected_vendor_name Model.Sonnet4) ∧
        strContains msg (expected_set_key_flag Model.Sonnet4) ∧
        strContains msg (expected_env_var Model.Sonnet4) :=
  validate_model_config_iff_credential (Config.mk none none none none none)
    (fun _ => none) Model.Sonnet4 (by decide)

theorem validate_ok_iff_key (c : Config) (env : Env) :
    ∀ m : Model, (c.validate_model_config env m = .ok ()) ↔
      ((c.get_api_key_for_model env m).isSome = true)
  | .Opus4_1 => (validate_spec_claude c env .Opus4_1 rfl rfl rfl rfl).1
  | .Opus4 => (validate_spec_claude c env .Opus4 rfl rfl rfl rfl).1
  | .Sonnet4 => (validate_spec_claude c env .Sonnet4 rfl rfl rfl rfl).1
  | .Sonnet3_7 => (validate_spec_claude c env .Sonnet3_7 rfl rfl rfl rfl).1
  | .Haiku3_5 => (validate_spec_claude c env .Haiku3_5 rfl rfl rfl rfl).1
  | .Haiku3 => (validate_spec_claude c env .Haiku3 rfl rfl rfl rfl).1
  | .Haiku4_5 => (validate_spec_claude c env .Haiku4_5 rfl rfl rfl rfl).1
  | .GPT5 => (validate_spec_openai c env .GPT5 rfl rfl rfl rfl).1
  | .GPT5Mini => (validate_spec_openai c env .GPT5Mini rfl rfl rfl rfl).1
  | .GPT5Nano => (validate_spec_openai c env .GPT5Nano rfl rfl rfl rfl).1
  | .Gemini2_5Pro => (validate_spec_gemini c env .Gemini2_5Pro rfl rfl rfl rfl).1
  | .Gemini2_5Flash => (validate_spec_gemini c env .Gemini2_5Flash rfl rfl rfl rfl).1
  | .Gemini2_5FlashLite => (validate_spec_gemini c env .Gemini2_5FlashLite rfl rfl rfl rfl).1
  | .MistralMedium31 => (validate_spec_mistral c env .MistralMedium31 rfl rfl rfl rfl).1
  | .MagistralMedium11 => (validate_spec_mistral c env .MagistralMedium11 rfl rfl rfl rfl).1
  | .Codestral2508 => (validate_spec_mistral c env .Codestral2508 rfl rfl rfl rfl).1
  | .MistralSmall32 => (validate_spec_mistral c env .MistralSmall32 rfl rfl rfl rfl).1
  | .Ministral8B => (validate_spec_mistral c env .Ministral8B rfl rfl rfl rfl).1

theorem create_client_some (m : Model) (key : String) :
    ∃ c, create_client m key = some c := by
  cases m <;> exact ⟨_, rfl⟩

/-- C3 counterexample: with a resolvable credential and no early-exit flag,
an empty staged-file set — and likewise a staged set that the `--only`
filter eliminates — makes `main` return `Ok(())`, i.e. exit status zero
with an informational message, not the non-zero failure exit the claim
requires for those two conditions. -/
theorem main_exits_zero_on_empty_staged_counterexample :
    mainModel
      ⟨none, none, none, none, none, false, some Model.Sonnet4, false, false, [], [], none⟩
      ⟨some "k", none, none, none, none⟩ (fun _ => none)
      ⟨.ok (), .ok [], .ok "", .ok "m", none, .exited true "m", .ok ()⟩ =
      .ok .noStagedFiles
    ∧ mainModel
      ⟨none, none, none, none, none, false, some Model.Sonnet4, false, false, [], ["b.rs"], none⟩
      ⟨some "k", none, none, none, none⟩ (fun _ => none)
      ⟨.ok (), .ok ["a.rs"], .ok "", .ok "m", none, .exited true "m", .ok ()⟩ =
      .ok .noFilteredFiles := by
  decide

/-- C3 (amended): the run exits zero exactly when it reaches a success or
one of the informational exits — a set-key/set-default-model exit with a
successful config save, the models listing, an empty staged set, an empty
filtered set, or a fully successful generation pipeline; every other
outcome is an error propagated to a non-zero exit. -/
theorem mainModel_exit_behavior :
    ∀ (cli : CliArgs) (config : Config) (env : Env) (fx : Effects),
      (mainModel cli config env fx).isOk = true ↔
        mainShouldSucceed cli config env fx := by
  intro cli config env fx
  simp only [mainModel, mainShouldSucceed]
  cases hc1 : cli.set_claude_key with
  | some k => cases hsv : fx.saveResult <;> simp [Except.isOk, Except.toBool]
  | none =>
  cases hc2 : cli.set_openai_key with
  | some k => cases hsv : fx.saveResult <;> simp [Except.isOk, Except.toBool]
  | none =>
  cases hc3 : cli.set_gemini_key with
  | some k => cases hsv : fx.saveResult <;> simp [Except.isOk, Except.toBool]
  | none =>
  cases hc4 : cli.set_mistral_key with
  | some k => cases hsv : fx.saveResult <;> simp [Except.isOk, Except.toBool]
  | none =>
  cases hc5 : cli.set_default_model with
  | some m => cases hsv : fx.saveResult <;> simp [Except.isOk, Except.toBool]
  | none =>
  cases hlm : cli.list_models with
  | true => simp [Except.isOk, Except.toBool]
  | false =>
  simp only [Option.isSome_none, Bool.or_self, Bool.or_false, Bool.false_or,
    Bool.false_eq_true, if_false]
  cases hv : config.validate_model_config env (cli.model.getD config.get_default_model) with
  | error e =>
    have hnk : ¬ ((config.get_api_key_for_model env
        (cli.model.getD config.get_default_model)).isSome = true) := by
      intro hk
      have h2 := (validate_ok_iff_key config env _).mpr hk
      rw [hv] at h2
      exact Except.noConfusion h2
    simp [Except.isOk, Except.toBool, hnk]
  | ok u =>
    cases u
    have hksome := (validate_ok_iff_key config env _).mp hv
    cases hk : config.get_api_key_for_model env (cli.model.getD config.get_default_model) with
    | none => rw [hk] at hksome; exact absurd hksome (by simp)
    | some key =>
      simp only [Option.isSome_some, true_and]
      cases hs : fx.stagedFiles with
      | error e => simp [Except.isOk, Except.toBool]
      | ok staged =>
        by_cases hemp : staged.isEmpty
        · have hnil : staged = [] := by simpa [List.isEmpty_iff] using hemp
          simp [hemp, hnil, Except.isOk, Except.toBool]
        · have hne : ¬ staged = [] := by simpa [List.isEmpty_iff] using hemp
          by_cases hfil : (apply_file_filters staged cli.only cli.exclude).isEmpty
          · have hfnil : apply_file_filters staged cli.only cli.exclude = [] := by
              simpa [List.isEmpty_iff] using hfil
            simp [hemp, hfil, hfnil, Except.isOk, Except.toBool]
          · have hfne : ¬ apply_file_filters staged cli.only cli.exclude = [] := by
              simpa [List.isEmpty_iff] using hfil
            simp only [hemp, hfil, if_false, Bool.false_eq_true]
            cases hd : fx.diffResult with
            | error e => simp [hne, hfne, Except.isOk, Except.toBool]
            | ok diff =>
              obtain ⟨client, hclient⟩ :=
                create_client_some (cli.model.getD config.get_default_model) key
              simp only [hclient]
              cases hg : fx.generateResult with
              | error e => simp [hne, hfne, Except.isOk, Except.toBool]
              | ok msg0 =>
                cases hedit : cli.edit with
                | false =>
                  cases hnc : cli.no_commit with
                  | true => simp [hne, hfne, Except.isOk, Except.toBool]
                  | false =>
                    cases hcm : fx.commitResult with
                    | error e2 => simp [hne, hfne, Except.isOk, Except.toBool]
                    | ok u2 => simp [hne, hfne, Except.isOk, Except.toBool]
                | true =>
                  cases heo : edit_commit_message_inner msg0 fx.editorVar fx.editorRun with
                  | error e2 =>
                    have heo2 : edit_commit_message_inner "" fx.editorVar fx.editorRun =
                        .error e2 := heo
                    simp [heo, heo2, hne, hfne, Except.isOk, Except.toBool]
                  | ok msg =>
                    have heo2 : edit_commit_message_inner "" fx.editorVar fx.editorRun =
                        .ok msg := heo
                    cases hnc : cli.no_commit with
                    | true => simp [heo, heo2, hne, hfne, Except.isOk, Except.toBool]
                    | false =>
                      cases hcm : fx.commitResult with
                      | error e2 => simp [heo, heo2, hne, hfne, Except.isOk, Except.toBool]
                      | ok u2 => simp [heo, heo2, hne, hfne, Except.isOk, Except.toBool]

theorem rust_trim_end_getLast_not_ws (s : String) :
    ∀ c, (rust_trim_end s).data.getLast? = some c → c.isWhitespace = false := by
  intro c hc
  have hc' : (s.data.reverse.dropWhile Char.isWhitespace).reverse.getLast? = some c := hc
  rw [List.getLast?_reverse] at hc'
  rw [← List.find?_not_eq_head?_dropWhile] at hc'
  have := List.find?_some hc'
  simpa using this

/-- C10: whenever the editor flow succeeds, `edit_commit_message_inner`
returns the edited file content with trailing whitespace removed
(`trim_end`), so the returned message never ends in a whitespace character
(newline or trailing space) even if the editor saved one. -/
theorem edit_commit_message_trims_trailing :
    ∀ (initial : String) (editorVar : Option String) (run : EditorRun)
      (res : String),
      edit_commit_message_inner initial editorVar run = .ok res →
      (∃ edited, run = .exited true edited ∧ res = rust_trim_end edited)
      ∧ ∀ c, res.data.getLast? = some c → c.isWhitespace = false := by
  intro initial editorVar run res h
  simp only [edit_commit_message_inner] at h
  split at h
  · exact Except.noConfusion h
  · split at h
    · exact Except.noConfusion h
    · cases run with
      | launchFailed err => exact Except.noConfusion h
      | exited success edited =>
        cases success with
        | false => exact Except.noConfusion h
        | true =>
          obtain rfl : rust_trim_end edited = res := Except.ok.inj h
          exact ⟨⟨edited, rfl, rfl⟩, rust_trim_end_getLast_not_ws edited⟩

/-- Witness for C10 at a concrete editor run whose saved file ends in a
space and a newline. -/
theorem edit_commit_message_trims_trailing_witness :
    (∃ edited, EditorRun.exited true "fix: y \n" = .exited true edited ∧
        "fix: y" = rust_trim_end edited)
    ∧ ∀ c, ("fix: y" : String).data.getLast? = some c → c.isWhitespace = false :=
  edit_commit_message_trims_trailing "x" none (.exited true "fix: y \n")
    "fix: y" (by decide)

/-- Witness for C8 at the concrete catalog model `GPT5` and key `"k"`. -/
theorem create_client_vendor_dispatch_total_witness :
    ((if Model.GPT5.is_claude then 1 else 0) + (if Model.GPT5.is_openai then 1 else 0) +
      (if Model.GPT5.is_gemini then 1 else 0) + (if Model.GPT5.is_mistral then 1 else 0) = 1)
    ∧ ∃ c, create_client Model.GPT5 "k" = some c ∧
        ((Model.GPT5.is_claude = true ∧ c = ProviderClient.claude "k" Model.GPT5) ∨
         (Model.GPT5.is_openai = true ∧ c = ProviderClient.openai "k" Model.GPT5) ∨
         (Model.GPT5.is_gemini = true ∧ c = ProviderClient.gemini "k" Model.GPT5) ∨
         (Model.GPT5.is_mistral = true ∧ c = ProviderClient.mistral "k" Model.GPT5)) :=
  create_client_vendor_dispatch_total Model.GPT5 (by decide) "k"

end Convmit
